import Mathlib

/-
Verification of the Impala DDL statement compiler (`ibis/impala/ddl.py`):
a shallow embedding of the string-assembly functions and statement classes,
together with theorems about partition formatting, property serialization,
scoped-name resolution and the individual statement compilers.

Python strings are modelled as Lean `String`; Python's `sep.join(tokens)` is
`joinStr`; Python `dict`s holding string keys are modelled as association
lists with (where the relevant theorem needs it) a no-duplicate-keys
hypothesis, matching the impossibility of duplicate keys in a `dict`.
Values that the source passes through `str(...)` are modelled as the
already-stringified `String`.
-/

namespace IbisDDL

/-- Python `sep.join(tokens)`: empty result on an empty list, otherwise the
head followed by `sep ++ token` for every further token. -/
def joinStr (sep : String) : List String → String
  | [] => ""
  | a :: as => as.foldl (fun acc x => acc ++ sep ++ x) a

/-- The abstract data types (`ibis.expr.datatypes`) in the roles this module
uses them: `string` drives partition-literal quoting, the others only have a
SQL spelling.  Only the variants exercised here are carried. -/
inductive DataType where
  | string
  | int32
  | double
  | timestamp
  deriving DecidableEq

/-- Modelled from the spec: the type-to-SQL mapper (`type_to_sql_string`,
defined in `ibis.backends.base_sql`, which is not part of this module's
source) returns the canonical dialect spelling of a data type. -/
def type_to_sql_string : DataType → String
  | DataType.string => "string"
  | DataType.int32 => "int"
  | DataType.double => "double"
  | DataType.timestamp => "timestamp"

/-- Modelled from the spec: scoped-name resolution (`_get_scoped_name` of
`BaseQualifiedSQLStatement` in `ibis.backends.base_sql.ddl`, not part of this
module's source): with a namespace present the result is `namespace.name`,
otherwise the name is returned unchanged. -/
def _get_scoped_name (name : String) (database : Option String) : String :=
  match database with
  | some db => db ++ "." ++ name
  | none => name

/-- Lexicographic comparison of `(key, value)` pairs: exactly the order
Python's `sorted(props.items())` uses (tuple comparison: first keys, values
break ties). -/
def propLe (a b : String × String) : Prop :=
  a.1 < b.1 ∨ (a.1 = b.1 ∧ a.2 ≤ b.2)

instance : DecidableRel propLe := fun a b => by
  unfold propLe
  infer_instance

instance : IsTotal (String × String) propLe := by
  constructor
  intro a b
  rcases lt_trichotomy a.1 b.1 with h | h | h
  · exact Or.inl (Or.inl h)
  · rcases le_total a.2 b.2 with h2 | h2
    · exact Or.inl (Or.inr ⟨h, h2⟩)
    · exact Or.inr (Or.inr ⟨h.symm, h2⟩)
  · exact Or.inr (Or.inl h)

instance : IsTrans (String × String) propLe := by
  constructor
  intro a b c hab hbc
  rcases hab with h | ⟨h, h2⟩
  · rcases hbc with h' | ⟨h', h2'⟩
    · exact Or.inl (h.trans h')
    · exact Or.inl (h' ▸ h)
  · rcases hbc with h' | ⟨h', h2'⟩
    · exact Or.inl (h ▸ h')
    · exact Or.inr ⟨h.trans h', h2.trans h2'⟩

instance : IsAntisymm (String × String) propLe := by
  constructor
  intro a b hab hba
  rcases hab with h | ⟨h, h2⟩
  · rcases hba with h' | ⟨h', h2'⟩
    · exact absurd h' (lt_asymm h)
    · exact absurd h (h'.symm ▸ lt_irrefl _)
  · rcases hba with h' | ⟨h', h2'⟩
    · exact absurd h' (h ▸ lt_irrefl _)
    · exact Prod.ext h (le_antisymm h2 h2')

/-- `_format_properties(props)`: sort the items (Python `sorted` on the
`(key, value)` tuples), render each as `  'k'='v'`, join with `,\n` and wrap
in `(\n`…`\n)`. -/
def _format_properties (props : List (String × String)) : String :=
  let tokens := (List.insertionSort propLe props).map
    (fun kv => "  '" ++ kv.1 ++ "'='" ++ kv.2 ++ "'")
  "(\n" ++ joinStr ",\n" tokens ++ "\n)"

/-- `format_tblproperties(props)`. -/
def format_tblproperties (props : List (String × String)) : String :=
  "TBLPROPERTIES " ++ _format_properties props

/-- `_serdeproperties(props)`. -/
def _serdeproperties (props : List (String × String)) : String :=
  "SERDEPROPERTIES " ++ _format_properties props

/-- A partition spec: either a mapping from partition-column name to
(stringified) value, or a positional sequence of values. -/
inductive PartitionSpec where
  | mapping (entries : List (String × String))
  | seq (values : List String)

/-- A partition schema: ordered columns, each a name paired with its declared
type.  The source's `Schema` iterates names in declared order and indexes by
name to the type (names are unique in a `Schema`), so iterating the pairs
directly is the same traversal. -/
def PartitionSchema : Type := List (String × DataType)

/-- `_format_partition_kv(k, v, type)`: double-quote the value when the
declared type is the string type, otherwise use the stringified value as-is;
emit `k=value`. -/
def _format_partition_kv (k v : String) (type : DataType) : String :=
  let value_formatted := if type = DataType.string then "\"" ++ v ++ "\"" else v
  k ++ "=" ++ value_formatted

/-- `_format_partition(partition, partition_schema)`: for a mapping spec walk
the schema columns in declared order, emitting `k=value` for a column present
in the spec and the bare name for an absent one; for a positional spec `zip`
the schema with the values (Python `zip`: stops at the shorter).  Wrap the
comma-joined tokens in `PARTITION (`…`)`. -/
def _format_partition (partition : PartitionSpec)
    (partition_schema : List (String × DataType)) : String :=
  let tokens : List String :=
    match partition with
    | PartitionSpec.mapping entries =>
        partition_schema.map (fun nt =>
          match entries.lookup nt.1 with
          | some v => _format_partition_kv nt.1 v nt.2
          | none => nt.1)
    | PartitionSpec.seq values =>
        (partition_schema.zip values).map
          (fun nv => _format_partition_kv nv.1.1 nv.2 nv.1.2)
  "PARTITION (" ++ joinStr ", " tokens ++ ")"

/-- The token `_format_partition` emits for one schema column under a
mapping spec: `k=value` when the column's name is found among the spec's
entries, the bare column name when it is not (the loop body of the mapping
branch, factored out for the statements below). -/
def mappingTok (entries : List (String × String)) (nt : String × DataType) :
    String :=
  match entries.lookup nt.1 with
  | some v => _format_partition_kv nt.1 v nt.2
  | none => nt.1

/-- Modelled from the spec: `_sanitize_format` (in
`ibis.backends.base_sql.ddl`, not part of this module's source) normalizes an
optionally-declared file format name; an absent format stays absent. -/
def _sanitize_format : Option String → Option String
  | none => none
  | some f => some f.toUpper

/-- `AlterTable._wrap_command(cmd)` (shared by the whole `ALTER TABLE`
family). -/
def _wrap_command (cmd : String) : String :=
  "ALTER TABLE " ++ cmd

/-- The fields of `AlterTable` after `__init__` (the constructor has already
passed `format` through `_sanitize_format`, see `AlterTable.make`). -/
structure AlterTable where
  table : String
  location : Option String
  format : Option String
  tbl_properties : Option (List (String × String))
  serde_properties : Option (List (String × String))

/-- `AlterTable.__init__`: stores the arguments, sanitizing `format`. -/
def AlterTable.make (table : String) (location : Option String)
    (format : Option String)
    (tbl_properties serde_properties : Option (List (String × String))) :
    AlterTable :=
  { table := table, location := location, format := _sanitize_format format,
    tbl_properties := tbl_properties, serde_properties := serde_properties }

/-- `AlterTable._format_properties(prefix)`: collect `LOCATION`,
`FILEFORMAT`, `TBLPROPERTIES`, `SERDEPROPERTIES` clauses for whichever fields
are set, in that order; prepend a newline and the supplied prefix when any
clause exists, otherwise return the empty string. -/
def AlterTable._format_properties (a : AlterTable) (pfx : String) : String :=
  let tokens : List String :=
    (match a.location with
     | some l => ["LOCATION '" ++ l ++ "'"]
     | none => []) ++
    (match a.format with
     | some f => ["FILEFORMAT " ++ f]
     | none => []) ++
    (match a.tbl_properties with
     | some p => [format_tblproperties p]
     | none => []) ++
    (match a.serde_properties with
     | some p => [_serdeproperties p]
     | none => [])
  if 0 < tokens.length then "\n" ++ pfx ++ joinStr "\n" tokens else ""

/-- `AlterTable.compile()`: `ALTER TABLE <table> SET <clauses>` (the property
block defaults to the empty-prefix rendering). -/
def AlterTable.compile (a : AlterTable) : String :=
  let props := a._format_properties ""
  _wrap_command (a.table ++ " SET " ++ props)

/-- The fields of `PartitionProperties` (an `AlterTable` carrying a partition
spec and its schema). -/
structure PartitionProperties where
  table : String
  partition : PartitionSpec
  partition_schema : List (String × DataType)
  location : Option String
  format : Option String
  tbl_properties : Option (List (String × String))
  serde_properties : Option (List (String × String))

/-- The `AlterTable` view of a `PartitionProperties` (the inherited fields). -/
def PartitionProperties.toAlter (p : PartitionProperties) : AlterTable :=
  { table := p.table, location := p.location, format := p.format,
    tbl_properties := p.tbl_properties, serde_properties := p.serde_properties }

/-- `PartitionProperties._compile(cmd, property_prefix)`: format the
partition clause, put the command word in front of it when the command is a
non-empty (truthy) string, append the property clauses and wrap as an
`ALTER TABLE`. -/
def PartitionProperties._compile (p : PartitionProperties)
    (cmd pfx : String) : String :=
  let part0 := _format_partition p.partition p.partition_schema
  let part := if cmd ≠ "" then cmd ++ " " ++ part0 else part0
  let props := p.toAlter._format_properties pfx
  _wrap_command (p.table ++ " " ++ part ++ props)

/-- `AddPartition.__init__`: only `location` among the property fields. -/
def AddPartition.make (table : String) (partition : PartitionSpec)
    (partition_schema : List (String × DataType)) (location : Option String) :
    PartitionProperties :=
  { table := table, partition := partition,
    partition_schema := partition_schema, location := location,
    format := none, tbl_properties := none, serde_properties := none }

/-- `AddPartition.compile()`: `self._compile('ADD')`. -/
def AddPartition.compile (p : PartitionProperties) : String :=
  p._compile "ADD" ""

/-- The fields of `RenameTable` after `__init__` (qualified names
precomputed, see `RenameTable.make`). -/
structure RenameTable where
  old_name : String
  new_name : String
  old_database : Option String
  new_database : Option String
  old_qualified_name : String
  new_qualified_name : String

/-- `RenameTable.__init__`: each side is qualified through the scoped-name
resolver only when its own database is present, otherwise the given name is
assumed fully scoped already. -/
def RenameTable.make (old_name new_name : String)
    (old_database new_database : Option String) : RenameTable :=
  { old_name := old_name, new_name := new_name,
    old_database := old_database, new_database := new_database,
    old_qualified_name :=
      match old_database with
      | some _ => _get_scoped_name old_name old_database
      | none => old_name,
    new_qualified_name :=
      match new_database with
      | some _ => _get_scoped_name new_name new_database
      | none => new_name }

/-- `RenameTable.compile()`: `ALTER TABLE <old> RENAME TO <new>`. -/
def RenameTable.compile (r : RenameTable) : String :=
  _wrap_command (r.old_qualified_name ++ " RENAME TO " ++ r.new_qualified_name)

/-- `_impala_input_signature(inputs)`: comma-joined SQL spellings. -/
def _impala_input_signature (inputs : List DataType) : String :=
  joinStr ", " (inputs.map type_to_sql_string)

/-- The fields of `DropFunction` (`inputs` already mapped through
`dt.dtype`, i.e. held as data types). -/
structure DropFunctionStmt where
  name : String
  inputs : List DataType
  must_exist : Bool
  aggregate : Bool
  database : Option String

/-- `DropFunction._impala_signature()`: `scoped_name(input types)`. -/
def DropFunctionStmt._impala_signature (d : DropFunctionStmt) : String :=
  _get_scoped_name d.name d.database ++ "(" ++
    _impala_input_signature d.inputs ++ ")"

/-- `DropFunction.compile()`: token list `DROP`, `AGGREGATE` when the flag is
set, `FUNCTION`, `IF EXISTS` when existence is not required, then the
signature; space-joined. -/
def DropFunctionStmt.compile (d : DropFunctionStmt) : String :=
  let tokens : List String :=
    ["DROP"] ++
    (if d.aggregate then ["AGGREGATE"] else []) ++
    ["FUNCTION"] ++
    (if d.must_exist then [] else ["IF EXISTS"]) ++
    [d._impala_signature]
  joinStr " " tokens

/-- An aggregate function descriptor as `CreateUDA` consumes it: signature
data, library path and the five optional phase symbols. -/
structure UDAFunc where
  name : String
  inputs : List DataType
  output : DataType
  lib_path : String
  init_fn : Option String
  update_fn : Option String
  merge_fn : Option String
  serialize_fn : Option String
  finalize_fn : Option String

/-- The fields of `CreateUDA` (`name` resolved to `name or func.name` by the
`CreateFunction` constructor, see `CreateUDA.make`). -/
structure CreateUDA where
  func : UDAFunc
  name : String
  database : Option String

/-- `CreateFunction.__init__` for the aggregate case: the statement name
falls back to the descriptor's name when none is supplied (Python
`name or func.name`). -/
def CreateUDA.make (func : UDAFunc) (name : Option String)
    (database : Option String) : CreateUDA :=
  { func := func, name := name.getD func.name, database := database }

/-- `CreateFunction._impala_signature()`:
`scoped_name(input types) returns output type`. -/
def CreateUDA._impala_signature (c : CreateUDA) : String :=
  _get_scoped_name c.name c.database ++ "(" ++
    _impala_input_signature c.func.inputs ++ ") returns " ++
    type_to_sql_string c.func.output

/-- `CreateUDA.compile()`: declaration and signature space-joined, then a
space, then the newline-joined tokens: the `location` clause followed by a
`fn='symbol'` assignment for each of the five phase attributes that is set,
scanned in the fixed order of `fn_names`. -/
def CreateUDA.compile (c : CreateUDA) : String :=
  let create_decl := "CREATE AGGREGATE FUNCTION"
  let impala_sig := c._impala_signature
  let fn_names : List (String × Option String) :=
    [("init_fn", c.func.init_fn), ("update_fn", c.func.update_fn),
     ("merge_fn", c.func.merge_fn), ("serialize_fn", c.func.serialize_fn),
     ("finalize_fn", c.func.finalize_fn)]
  let tokens := ["location '" ++ c.func.lib_path ++ "'"] ++
    fn_names.filterMap (fun p => p.2.map (fun v => p.1 ++ "='" ++ v ++ "'"))
  joinStr " " [create_decl, impala_sig] ++ " " ++ joinStr "\n" tokens

/-- The per-phase token emitted by `CreateUDA.compile` for one attribute:
one `fn='symbol'` assignment when the symbol is configured, nothing when it
is absent. -/
def phaseTok (n : String) : Option String → List String
  | some v => [n ++ "='" ++ v ++ "'"]
  | none => []

/-- Modelled from the spec: `format_schema` (in `ibis.backends.base_sql`,
not part of this module's source) renders a schema as a parenthesized column
list, each column spelled `name type`. -/
def format_schema (s : List (String × DataType)) : String :=
  "(" ++ joinStr ",\n " (s.map (fun nt => nt.1 ++ " " ++ type_to_sql_string nt.2)) ++ ")"

/-- The fields of `CreateTableParquet` relevant to compilation. -/
structure CreateTableParquet where
  table_name : String
  database : Option String
  path : String
  example_file : Option String
  example_table : Option String
  schema : Option (List (String × DataType))
  external : Bool

/-- Modelled from the spec: `CreateTable._storage()` for the columnar
(Parquet) format descriptor: `STORED AS PARQUET`. -/
def CreateTableParquet._storage (_ : CreateTableParquet) : String :=
  "STORED AS PARQUET"

/-- Modelled from the spec: `CreateTable._location()`: `LOCATION '<path>'`. -/
def CreateTableParquet._location (t : CreateTableParquet) : String :=
  "LOCATION '" ++ t.path ++ "'"

/-- `CreateTableParquet._pieces`: a generator that yields the schema source
clause — `LIKE PARQUET '<file>'` from an example file, else `LIKE <table>`
from an example table, else the formatted schema — and raises
(`NotImplementedError`) before yielding anything when none of the three is
given; then the storage and location clauses.  The raising generator is
embedded as `Except.error`. -/
def CreateTableParquet._pieces (t : CreateTableParquet) :
    Except String (List String) :=
  match t.example_file with
  | some f =>
      Except.ok (["LIKE PARQUET '" ++ f ++ "'"] ++ [t._storage, t._location])
  | none =>
      match t.example_table with
      | some tb => Except.ok (["LIKE " ++ tb] ++ [t._storage, t._location])
      | none =>
          match t.schema with
          | some s =>
              Except.ok ([format_schema s] ++ [t._storage, t._location])
          | none => Except.error "NotImplementedError"

/-- Modelled from the spec: the `CreateTable.compile` scaffolding (in
`ibis.backends.base_sql.ddl`, not part of this module's source) emits
`CREATE [EXTERNAL] TABLE <name>` followed by the newline-joined pieces; a
failure raised while the pieces are produced aborts compilation before any
text is returned. -/
def CreateTableParquet.compile (t : CreateTableParquet) :
    Except String String := do
  let pieces ← t._pieces
  pure ("CREATE " ++ (if t.external then "EXTERNAL " else "") ++ "TABLE " ++
    _get_scoped_name t.table_name t.database ++ "\n" ++ joinStr "\n" pieces)

/-! ## Helper lemmas -/

/-- Sorting with `propLe` is invariant under permutation of the input: the
relation is a linear order on pairs, so the sorted list is unique. -/
theorem insertionSort_propLe_perm_eq (l l' : List (String × String))
    (h : l.Perm l') :
    List.insertionSort propLe l = List.insertionSort propLe l' :=
  List.eq_of_perm_of_sorted
    (((List.perm_insertionSort propLe l).trans h).trans
      (List.perm_insertionSort propLe l').symm)
    (List.sorted_insertionSort propLe l)
    (List.sorted_insertionSort propLe l')

/-- A list whose key projection has no duplicates and which is sorted by
`propLe` has strictly increasing keys. -/
theorem keys_strict_of_sorted_nodup (l : List (String × String))
    (hs : List.Sorted propLe l) (hnd : (l.map Prod.fst).Nodup) :
    (l.map Prod.fst).Pairwise (fun a b => a < b) := by
  rw [List.Nodup, List.pairwise_map] at hnd
  rw [List.pairwise_map]
  refine (hs.and hnd).imp ?_
  rintro a b ⟨hle, hne⟩
  rcases hle with h | ⟨h, _⟩
  · exact h
  · exact absurd h hne

/-! ## Claims -/

/-- Claim C1: the partition key-value formatter emits `name="value"` (double
quotes around the value) exactly when the declared type is the string type,
and `name=value` with the stringified value unquoted for every other type;
in particular `col="2020-01-01"` for a string column and `col=5` for an
integer column. -/
theorem partition_kv_quoting (k v : String) (t : DataType) :
    _format_partition_kv k v t =
      (if t = DataType.string
       then k ++ "=" ++ ("\"" ++ v ++ "\"")
       else k ++ "=" ++ v) ∧
    _format_partition_kv "col" "2020-01-01" DataType.string =
      "col=\"2020-01-01\"" ∧
    _format_partition_kv "col" "5" DataType.int32 = "col=5" := by
  refine ⟨?_, by decide, by decide⟩
  cases t <;> rfl

/-- Claim C2 counterexample: a positional partition spec shorter than the
partition schema does not make formatting fail — the schema column `b` is
silently dropped and a `PARTITION` clause is still produced. -/
theorem partition_seq_mismatch_emits :
    (([("a", DataType.int32), ("b", DataType.int32)] :
        List (String × DataType)).length ≠ (["1"] : List String).length) ∧
    _format_partition (PartitionSpec.seq ["1"])
        [("a", DataType.int32), ("b", DataType.int32)] =
      "PARTITION (a=1)" :=
  ⟨by decide, rfl⟩

/-- Claim C2 (amended): formatting a positional partition spec never fails;
values are paired with schema columns up to the shorter of the two lengths
(Python `zip` truncation) and a `PARTITION` clause is emitted from that
— possibly truncated — pairing. -/
theorem partition_seq_truncates (values : List String)
    (schema : List (String × DataType)) :
    ∃ tokens : List String,
      _format_partition (PartitionSpec.seq values) schema =
        "PARTITION (" ++ joinStr ", " tokens ++ ")" ∧
      tokens.length = min schema.length values.length ∧
      List.Forall₂
        (fun (nv : (String × DataType) × String) tok =>
          tok = _format_partition_kv nv.1.1 nv.2 nv.1.2)
        (schema.zip values) tokens := by
  refine ⟨(schema.zip values).map
    (fun nv => _format_partition_kv nv.1.1 nv.2 nv.1.2), ?_, ?_, ?_⟩
  · rfl
  · rw [List.length_map]
    exact List.length_zip schema values
  · rw [List.forall₂_map_right_iff]
    exact List.forall₂_same.mpr (fun a _ => rfl)

/-- Claim C3: property serialization sorts entries into strictly ascending
lexicographic key order no matter the input order, renders one `'k'='v'`
entry per line (keys and values single-quoted verbatim, with no escaping),
comma-separates them with no trailing comma and wraps the block in
parentheses. -/
theorem properties_sorted (props : List (String × String))
    (hnd : (props.map Prod.fst).Nodup) :
    ∃ l : List (String × String), l.Perm props ∧
      (l.map Prod.fst).Pairwise (fun a b => a < b) ∧
      _format_properties props =
        "(\n" ++
          joinStr ",\n" (l.map (fun kv => "  '" ++ kv.1 ++ "'='" ++ kv.2 ++ "'")) ++
          "\n)" := by
  refine ⟨List.insertionSort propLe props,
    List.perm_insertionSort propLe props, ?_, rfl⟩
  refine keys_strict_of_sorted_nodup _ (List.sorted_insertionSort propLe props) ?_
  exact (((List.perm_insertionSort propLe props).map Prod.fst).nodup_iff).mpr hnd

/-- Witness for C3 at a concrete two-entry map given in reverse order. -/
theorem properties_sorted_witness :
    ((([("b", "2"), ("a", "1")] : List (String × String)).map Prod.fst).Nodup) ∧
    (∃ l : List (String × String),
      l.Perm [("b", "2"), ("a", "1")] ∧
      (l.map Prod.fst).Pairwise (fun a b => a < b) ∧
      _format_properties [("b", "2"), ("a", "1")] =
        "(\n" ++
          joinStr ",\n" (l.map (fun kv => "  '" ++ kv.1 ++ "'='" ++ kv.2 ++ "'")) ++
          "\n)") :=
  ⟨by decide, properties_sorted [("b", "2"), ("a", "1")] (by decide)⟩

/-- Claim C4: for a mapping spec the `PARTITION` clause lists one token per
partition-schema column, in the schema's declared order; a column present in
the mapping contributes `col=literal`, an absent one contributes the bare
column name.  End to end, `AddPartition` with a mapping covering 2 of 3
schema columns emits the third as a bare dynamic-partition token. -/
theorem partition_mapping_schema_order (entries : List (String × String))
    (schema : List (String × DataType)) :
    (∃ tokens : List String,
      _format_partition (PartitionSpec.mapping entries) schema =
        "PARTITION (" ++ joinStr ", " tokens ++ ")" ∧
      List.Forall₂ (fun nt tok => tok = mappingTok entries nt) schema tokens) ∧
    (∀ nt : String × DataType, ∀ v, entries.lookup nt.1 = some v →
      mappingTok entries nt = _format_partition_kv nt.1 v nt.2) ∧
    (∀ nt : String × DataType, entries.lookup nt.1 = none →
      mappingTok entries nt = nt.1) ∧
    AddPartition.compile
        (AddPartition.make "tbl"
          (PartitionSpec.mapping [("a", "1"), ("b", "x")])
          [("a", DataType.int32), ("b", DataType.string),
           ("c", DataType.int32)] none) =
      "ALTER TABLE tbl ADD PARTITION (a=1, b=\"x\", c)" := by
  refine ⟨⟨schema.map (mappingTok entries), ?_, ?_⟩, ?_, ?_, ?_⟩
  · rfl
  · rw [List.forall₂_map_right_iff]
    exact List.forall₂_same.mpr (fun a _ => rfl)
  · intro nt v hv
    unfold mappingTok
    rw [hv]
  · intro nt hv
    unfold mappingTok
    rw [hv]
  · decide

/-- Witness for C4 at a one-entry mapping: a present column formats as a
key-value token, an absent one as its bare name. -/
theorem partition_mapping_schema_order_witness :
    List.lookup "a" [("a", "1")] = some "1" ∧
    mappingTok [("a", "1")] ("a", DataType.int32) =
      _format_partition_kv "a" "1" DataType.int32 ∧
    List.lookup "c" [("a", "1")] = none ∧
    mappingTok [("a", "1")] ("c", DataType.string) = "c" :=
  ⟨rfl,
   (partition_mapping_schema_order [("a", "1")] []).2.1
     ("a", DataType.int32) "1" rfl,
   rfl,
   (partition_mapping_schema_order [("a", "1")] []).2.2.1
     ("c", DataType.string) rfl⟩

/-- Claim C5 counterexample: a `CreateTableParquet` given both an example
file and a schema — so not exactly one of the three sources — does not fail:
it compiles to a complete statement driven by the example file. -/
theorem parquet_overdetermined_compiles :
    (({ table_name := "t", database := none, path := "/p",
        example_file := some "f.parq", example_table := none,
        schema := some [("a", DataType.int32)], external := true } :
        CreateTableParquet).example_file.isSome = true) ∧
    (({ table_name := "t", database := none, path := "/p",
        example_file := some "f.parq", example_table := none,
        schema := some [("a", DataType.int32)], external := true } :
        CreateTableParquet).schema.isSome = true) ∧
    ({ table_name := "t", database := none, path := "/p",
       example_file := some "f.parq", example_table := none,
       schema := some [("a", DataType.int32)], external := true } :
       CreateTableParquet).compile =
      Except.ok
        "CREATE EXTERNAL TABLE t\nLIKE PARQUET 'f.parq'\nSTORED AS PARQUET\nLOCATION '/p'" :=
  ⟨rfl, rfl, rfl⟩

/-- Claim C5 (amended): compilation of a Parquet `CreateTable` fails — as a
configuration error raised before any text is produced — exactly when none
of example file, example table and schema is given; when more than one is
given no error is raised and the first present in the priority order
example file, example table, schema determines the emitted schema-source
clause. -/
theorem parquet_source_selection (t : CreateTableParquet) :
    ((∃ e, t.compile = Except.error e) ↔
      t.example_file = none ∧ t.example_table = none ∧ t.schema = none) ∧
    (∀ f, t.example_file = some f →
      t._pieces = Except.ok
        (["LIKE PARQUET '" ++ f ++ "'"] ++ [t._storage, t._location])) ∧
    (∀ tb, t.example_file = none → t.example_table = some tb →
      t._pieces = Except.ok
        (["LIKE " ++ tb] ++ [t._storage, t._location])) ∧
    (∀ s, t.example_file = none → t.example_table = none →
      t.schema = some s →
      t._pieces = Except.ok
        ([format_schema s] ++ [t._storage, t._location])) := by
  refine ⟨⟨?_, ?_⟩, ?_, ?_, ?_⟩
  · rintro ⟨e, he⟩
    rcases hf : t.example_file with _ | f
    · rcases ht : t.example_table with _ | tb
      · rcases hs : t.schema with _ | s
        · exact ⟨rfl, rfl, rfl⟩
        · simp [CreateTableParquet.compile, CreateTableParquet._pieces,
            hf, ht, hs] at he
      · simp [CreateTableParquet.compile, CreateTableParquet._pieces,
          hf, ht] at he
    · simp [CreateTableParquet.compile, CreateTableParquet._pieces, hf] at he
  · rintro ⟨hf, ht, hs⟩
    exact ⟨"NotImplementedError", by
      simp [CreateTableParquet.compile, CreateTableParquet._pieces,
        hf, ht, hs]⟩
  · intro f hf
    simp [CreateTableParquet._pieces, hf]
  · intro tb hf ht
    simp [CreateTableParquet._pieces, hf, ht]
  · intro s hf ht hs
    simp [CreateTableParquet._pieces, hf, ht, hs]

/-- Witness for C5 (amended) at a schema-only table: no error, and the
pieces start from the formatted schema. -/
theorem parquet_source_selection_witness :
    (({ table_name := "t", database := none, path := "/p",
        example_file := none, example_table := none,
        schema := some [("a", DataType.int32)], external := true } :
        CreateTableParquet).example_file = none) ∧
    (({ table_name := "t", database := none, path := "/p",
        example_file := none, example_table := none,
        schema := some [("a", DataType.int32)], external := true } :
        CreateTableParquet).example_table = none) ∧
    ({ table_name := "t", database := none, path := "/p",
       example_file := none, example_table := none,
       schema := some [("a", DataType.int32)], external := true } :
       CreateTableParquet)._pieces =
      Except.ok
        ([format_schema [("a", DataType.int32)]] ++
          [CreateTableParquet._storage
            { table_name := "t", database := none, path := "/p",
              example_file := none, example_table := none,
              schema := some [("a", DataType.int32)], external := true },
           CreateTableParquet._location
            { table_name := "t", database := none, path := "/p",
              example_file := none, example_table := none,
              schema := some [("a", DataType.int32)], external := true }]) :=
  ⟨rfl, rfl,
    (parquet_source_selection
      { table_name := "t", database := none, path := "/p",
        example_file := none, example_table := none,
        schema := some [("a", DataType.int32)], external := true }).2.2.2
      [("a", DataType.int32)] rfl rfl rfl⟩

/-- Claim C6: scoped-name resolution yields `namespace.name` when a
namespace is supplied and the unchanged name when it is absent, and
`RenameTable` resolves its old and new names independently through that
rule, compiling to `ALTER TABLE <old> RENAME TO <new>`. -/
theorem rename_scoped_names (n db oldN newN : String)
    (oldDb newDb : Option String) :
    _get_scoped_name n none = n ∧
    _get_scoped_name n (some db) = db ++ "." ++ n ∧
    (RenameTable.make oldN newN oldDb newDb).compile =
      "ALTER TABLE " ++ _get_scoped_name oldN oldDb ++ " RENAME TO " ++
        _get_scoped_name newN newDb := by
  refine ⟨rfl, rfl, ?_⟩
  cases oldDb <;> cases newDb <;>
    simp [RenameTable.make, RenameTable.compile, _wrap_command,
      _get_scoped_name, String.append_assoc]

/-- Claim C7: `DropFunction` emits `DROP`, then `AGGREGATE` exactly when the
aggregate flag is set, then `FUNCTION`, then `IF EXISTS` exactly when
existence is not required, then the scoped signature; the concrete statement
for name `f`, two integer inputs, `must_exist = False`, `aggregate = True`
and database `db` is `DROP AGGREGATE FUNCTION IF EXISTS db.f(int, int)`. -/
theorem drop_function_compile (d : DropFunctionStmt) :
    d.compile =
      "DROP " ++ (if d.aggregate then "AGGREGATE " else "") ++ "FUNCTION " ++
        (if d.must_exist then "" else "IF EXISTS ") ++ d._impala_signature ∧
    (DropFunctionStmt.mk "f" [DataType.int32, DataType.int32] false true
        (some "db")).compile =
      "DROP AGGREGATE FUNCTION IF EXISTS db.f(" ++
        type_to_sql_string DataType.int32 ++ ", " ++
        type_to_sql_string DataType.int32 ++ ")" := by
  refine ⟨?_, by decide⟩
  rcases d with ⟨n, i, me, ag, db⟩
  cases me <;> cases ag <;> rfl

/-- Claim C8: `CreateUDA` emits, after the location clause, one `fn='value'`
assignment per configured phase symbol and nothing for an absent one, always
scanning the phases in the fixed order init, update, merge, serialize,
finalize; a descriptor with the serialize phase absent omits exactly that
assignment. -/
theorem create_uda_phase_tokens (c : CreateUDA) :
    c.compile =
      "CREATE AGGREGATE FUNCTION " ++ c._impala_signature ++ " " ++
        joinStr "\n"
          (("location '" ++ c.func.lib_path ++ "'") ::
            (phaseTok "init_fn" c.func.init_fn ++
             phaseTok "update_fn" c.func.update_fn ++
             phaseTok "merge_fn" c.func.merge_fn ++
             phaseTok "serialize_fn" c.func.serialize_fn ++
             phaseTok "finalize_fn" c.func.finalize_fn)) ∧
    (CreateUDA.make
        (UDAFunc.mk "agg" [DataType.int32] DataType.double "/lib.so"
          (some "Init") (some "Update") (some "Merge") none (some "Finalize"))
        none none).compile =
      "CREATE AGGREGATE FUNCTION agg(int) returns double " ++
        "location '/lib.so'\ninit_fn='Init'\nupdate_fn='Update'\n" ++
        "merge_fn='Merge'\nfinalize_fn='Finalize'" := by
  refine ⟨?_, by decide⟩
  rcases c with ⟨⟨n, i, o, lib, f1, f2, f3, f4, f5⟩, nm, db⟩
  cases f1 <;> cases f2 <;> cases f3 <;> cases f4 <;> cases f5 <;> rfl

/-- Claim C9: compilation is deterministic — compile is a pure function of
the statement's fields, and statements built from property maps holding the
same entries (in any order) compile to byte-for-byte identical text, because
serialization sorts entries. -/
theorem compile_deterministic (props props' tp tp' sp sp' :
      List (String × String))
    (t : String) (loc fmt : Option String)
    (h : props.Perm props') (htp : tp.Perm tp') (hsp : sp.Perm sp') :
    format_tblproperties props = format_tblproperties props' ∧
    (AlterTable.make t loc fmt (some tp) (some sp)).compile =
      (AlterTable.make t loc fmt (some tp') (some sp')).compile := by
  have hfmt : ∀ (a b : List (String × String)), a.Perm b →
      _format_properties a = _format_properties b := by
    intro a b hab
    unfold _format_properties
    rw [insertionSort_propLe_perm_eq a b hab]
  constructor
  · unfold format_tblproperties
    rw [hfmt props props' h]
  · unfold AlterTable.compile AlterTable.make AlterTable._format_properties
    simp only [format_tblproperties, _serdeproperties,
      hfmt tp tp' htp, hfmt sp sp' hsp]

/-- Witness for C9 at concrete two-entry property maps given in opposite
orders. -/
theorem compile_deterministic_witness :
    ([("b", "2"), ("a", "1")] : List (String × String)).Perm
        [("a", "1"), ("b", "2")] ∧
    (format_tblproperties [("b", "2"), ("a", "1")] =
        format_tblproperties [("a", "1"), ("b", "2")] ∧
      (AlterTable.make "t" none none (some [("b", "2"), ("a", "1")])
          (some [("b", "2"), ("a", "1")])).compile =
        (AlterTable.make "t" none none (some [("a", "1"), ("b", "2")])
          (some [("a", "1"), ("b", "2")])).compile) :=
  ⟨by decide,
    compile_deterministic [("b", "2"), ("a", "1")] [("a", "1"), ("b", "2")]
      [("b", "2"), ("a", "1")] [("a", "1"), ("b", "2")]
      [("b", "2"), ("a", "1")] [("a", "1"), ("b", "2")]
      "t" none none (by decide) (by decide) (by decide)⟩

/-- Claim C10: an `AlterTable` with none of location, format, table
properties and serde properties set still compiles (no failure), producing
`ALTER TABLE <table> SET ` with an empty property clause and a trailing
space. -/
theorem alter_table_empty_props (t : String) :
    (AlterTable.make t none none none none).compile =
      "ALTER TABLE " ++ t ++ " SET " := by
  show _wrap_command (t ++ " SET " ++ "") = _
  rw [String.append_empty]
  rfl

end IbisDDL
